import Mathlib

/-!
Verification development for the uber-backend ride-dispatch core.

The definitions below are shallow embeddings of the JavaScript source:

* `RideStatus`, `validTransitions`, `statusStr` — the status enum and the
  transition table duplicated verbatim in `src/socket.js` (handler for
  `ride:status`) and in the HTTP `updateRideStatus` controller.
* `Ride`, `Sys`, `updateRideStatus` — the ride record (src/models/ride.model.js)
  together with the single tracked captain's availability flag, and the shared
  status-update logic of the two handlers (their switch bodies are identical
  line for line; socket fields and response shaping are omitted as I/O).
* `startRide`, `endRide`, `cancelRide` — the service operations of
  src/services/ride.service.js, with Mongoose `findOne` filters rendered as
  guards and "no `save` on the error path" rendered as `runOrKeep`.
* `getFareAmount`, `createRideFare` — the two fare computations
  (`getFare` and the inline fare block of `createRide`), over ℚ with
  JavaScript `Math.round` modelled as `jsRound q = ⌊q + 1/2⌋`.
* `getDistanceTime`, `getRouteDetails` — the two route lookups of
  src/services/maps.service.js, parameterised over the external OSRM provider
  and over the (transcendental, hence abstracted) haversine distance function.
* `generateOTP`, `getOtp` — the verification-code generators, parameterised
  over `crypto.randomInt` (whose contract is `randomIntSpec`).
-/

/-- Ride lifecycle states, mirroring the `status` enum of
src/models/ride.model.js: requested, accepted, on-the-way, in-progress,
completed, cancelled. -/
inductive RideStatus where
  | requested
  | accepted
  | onTheWay
  | inProgress
  | completed
  | cancelled
deriving DecidableEq, Repr

/-- The string each status renders as in the source (used in the
"Invalid status transition from X to Y" message). -/
def statusStr : RideStatus → String
  | .requested => "requested"
  | .accepted => "accepted"
  | .onTheWay => "on-the-way"
  | .inProgress => "in-progress"
  | .completed => "completed"
  | .cancelled => "cancelled"

/-- The `validTransitions` table, written identically in src/socket.js
(`ride:status` handler) and in the HTTP `updateRideStatus` controller. -/
def validTransitions : RideStatus → List RideStatus
  | .requested => [.accepted, .cancelled]
  | .accepted => [.onTheWay, .cancelled]
  | .onTheWay => [.inProgress, .cancelled]
  | .inProgress => [.completed, .cancelled]
  | .completed => []
  | .cancelled => []

/-- Modelled from the spec: the edge set the spec's §4.3 describes —
`Requested → Accepted → OnTheWay → InProgress → {Completed | Cancelled}`,
plus `Requested → Cancelled` and `Accepted → Cancelled` as the only other
legal edges. Used only for comparison with the source's table. -/
def specDagAllowed : RideStatus → RideStatus → Bool
  | .requested, .accepted => true
  | .accepted, .onTheWay => true
  | .onTheWay, .inProgress => true
  | .inProgress, .completed => true
  | .inProgress, .cancelled => true
  | .requested, .cancelled => true
  | .accepted, .cancelled => true
  | _, _ => false

/-- The edge set the source's `validTransitions` table actually encodes:
the spec's DAG together with the extra edge `OnTheWay → Cancelled`. -/
def amendedDagAllowed (cur next : RideStatus) : Bool :=
  specDagAllowed cur next || (cur = .onTheWay && next = .cancelled)

/-- Actor type carried by the socket session (`socket.user.type`) and by
`req.user.type` in the HTTP handler. -/
inductive UserType where
  | user
  | captain
deriving DecidableEq, Repr

/-- The ride record of src/models/ride.model.js, restricted to the fields the
dispatch logic reads or writes.  Timestamps (`estimatedArrivalTime`,
`actualArrivalTime`, `actualEndTime`) are modelled as set/unset flags; pickup
and destination are not consulted by any transition and are omitted. -/
structure Ride where
  user : Nat
  captain : Option Nat
  status : RideStatus
  otp : String
  estimatedArrival : Bool
  actualArrival : Bool
  actualEnd : Bool
  cancellationReason : Option String
  paymentMethod : Option String
  tip : Option ℚ
deriving DecidableEq, Repr

/-- System state: one ride together with the single tracked captain
(identified by `capId`) and that captain's `isAvailable` flag from
src/models/captain.model.js. -/
structure Sys where
  ride : Ride
  capId : Nat
  isAvailable : Bool
deriving DecidableEq, Repr

/-- The optional `data` payload of a status-update request
(`data.otp`, `data.reason`). -/
structure RideData where
  otp : Option String
  reason : Option String
deriving DecidableEq, Repr

/-- JavaScript truthiness of an optional string: `undefined` and the empty
string are falsy. -/
def jsTruthyStr : Option String → Bool
  | none => false
  | some s => !s.isEmpty

/-- `captainModel.findByIdAndUpdate(target, { isAvailable: b })`: updates the
tracked captain's flag when the id matches, otherwise leaves the state alone. -/
def setAvail (s : Sys) (target : Option Nat) (b : Bool) : Sys :=
  if target = some s.capId then { s with isAvailable := b } else s

/-- Database semantics of a fallible operation: on success the saved state,
on error nothing was saved (the source throws before calling `save`). -/
def runOrKeep (s : Sys) (r : Except String Sys) : Sys :=
  match r with
  | .ok s2 => s2
  | .error _ => s

/-- The status-update logic shared verbatim by the socket `ride:status`
handler (src/socket.js) and the HTTP `updateRideStatus` controller: validate
the transition against `validTransitions`, set `ride.status`, then run the
per-status switch (captain-only checks, captain assignment and availability
flips, OTP check, timestamps, cancellation reason), and save. -/
def updateRideStatus (s : Sys) (ut : UserType) (actor : Nat)
    (newStatus : RideStatus) (data : RideData) : Except String Sys :=
  if !(validTransitions s.ride.status).contains newStatus then
    .error ("Invalid status transition from " ++ statusStr s.ride.status ++
      " to " ++ statusStr newStatus)
  else
    let draft : Sys := { s with ride := { s.ride with status := newStatus } }
    match newStatus with
    | .accepted =>
      if ut ≠ .captain then .error ("Only captain can accept rides")
      else
        let d2 : Sys := { draft with ride := { draft.ride with captain := some actor } }
        .ok (setAvail d2 (some actor) false)
    | .onTheWay =>
      if ut ≠ .captain then .error ("Only captain can update ride to on-the-way")
      else .ok { draft with ride := { draft.ride with estimatedArrival := true } }
    | .inProgress =>
      if ut ≠ .captain then .error ("Only captain can start rides")
      else if jsTruthyStr data.otp ∧ data.otp ≠ some s.ride.otp then
        .error ("Invalid OTP")
      else .ok { draft with ride := { draft.ride with actualArrival := true } }
    | .completed =>
      if ut ≠ .captain then .error ("Only captain can complete rides")
      else .ok (setAvail { draft with ride := { draft.ride with actualEnd := true } }
        draft.ride.captain true)
    | .cancelled =>
      let reasonVal : String :=
        match data.reason with
        | some r => if r.isEmpty then "Cancelled by user" else r
        | none => "Cancelled by user"
      let d2 : Sys := { draft with ride := { draft.ride with cancellationReason := some reasonVal } }
      match d2.ride.captain with
      | some cid => .ok (setAvail d2 (some cid) true)
      | none => .ok d2
    | .requested => .ok draft

/-- Captain branch of the socket auth middleware (src/socket.js): on connect
the captain's record gets `isAvailable: true` unconditionally (it also stores
the socket id and `lastSeen`, omitted here). -/
def socketConnect (s : Sys) : Sys := { s with isAvailable := true }

/-- Captain branch of the `disconnect` handler (src/socket.js): on disconnect
the captain's record gets `isAvailable: false` unconditionally. -/
def socketDisconnect (s : Sys) : Sys := { s with isAvailable := false }

/-- `startRide` of src/services/ride.service.js: the `findOne` filter
(matching id, captain and status `accepted`) becomes a guard; a wrong OTP
throws before any mutation; on success the ride moves to `in-progress` and
the actual-arrival timestamp is set. -/
def startRide (s : Sys) (actor : Nat) (otp : String) : Except String Sys :=
  if s.ride.captain = some actor ∧ s.ride.status = .accepted then
    if s.ride.otp ≠ otp then .error ("Failed to start ride: Invalid OTP")
    else .ok { s with ride := { s.ride with status := .inProgress, actualArrival := true } }
  else .error ("Failed to start ride: Ride not found or not in correct state")

/-- `endRide` of src/services/ride.service.js: requires captain match and
status `in-progress`; sets status `completed`, the actual-end timestamp,
payment method and (if truthy) tip.  It performs no captain-availability
update. -/
def endRide (s : Sys) (actor : Nat) (paymentMethod : Option String)
    (tip : Option ℚ) : Except String Sys :=
  if s.ride.captain = some actor ∧ s.ride.status = .inProgress then
    let newTip : Option ℚ :=
      match tip with
      | some t => if t = 0 then s.ride.tip else some t
      | none => s.ride.tip
    let r2 : Ride := { s.ride with
      status := .completed
      actualEnd := true
      paymentMethod := paymentMethod
      tip := newTip }
    .ok { s with ride := r2 }
  else .error ("Failed to end ride: Ride not found or not in progress")

/-- `cancelRide` of src/services/ride.service.js: the `findOne` filter matches
the requesting user and status in `[requested, accepted]`; on success the ride
is cancelled and the reason recorded.  It performs no captain-availability
update. -/
def cancelRide (s : Sys) (userId : Nat) (reason : Option String) : Except String Sys :=
  if s.ride.user = userId ∧ (s.ride.status = .requested ∨ s.ride.status = .accepted) then
    .ok { s with ride := { s.ride with status := .cancelled, cancellationReason := reason } }
  else .error ("Failed to cancel ride: Ride not found or cannot be cancelled")

/-- A status is active (non-terminal) when it is neither completed nor
cancelled. -/
def activeStatus : RideStatus → Bool
  | .completed => false
  | .cancelled => false
  | _ => true

/-- The tracked captain holds an active ride assignment. -/
def holdsActiveRide (s : Sys) : Bool :=
  decide (s.ride.captain = some s.capId) && activeStatus s.ride.status

/-- The spec's Driver invariant: the availability flag is false exactly when
the captain holds an active (non-terminal) ride assignment. -/
def availabilityInvariant (s : Sys) : Prop :=
  s.isAvailable = !holdsActiveRide s

instance (s : Sys) : Decidable (availabilityInvariant s) := by
  unfold availabilityInvariant; infer_instance

/-- Vehicle classes of the source (`auto`, `car`, `moto`). -/
inductive VehicleType where
  | auto
  | car
  | moto
deriving DecidableEq, Repr

/-- Base fares of src/services/ride.service.js (same table in `getFare` and
`createRide`): auto 30, car 50, moto 20. -/
def baseFare : VehicleType → ℤ
  | .auto => 30
  | .car => 50
  | .moto => 20

/-- Per-kilometre rates: auto 10, car 15, moto 8. -/
def perKmRate : VehicleType → ℚ
  | .auto => 10
  | .car => 15
  | .moto => 8

/-- Per-minute rates: auto 2, car 3, moto 1.5. -/
def perMinuteRate : VehicleType → ℚ
  | .auto => 2
  | .car => 3
  | .moto => 3 / 2

/-- Surge multiplier by hour of day, as computed in both `getFare` and
`createRide`: 1.5 during 7-9 and 17-19, 1.3 during 22-23 or 0-5, else 1.0. -/
def surgeMultiplier (hour : ℕ) : ℚ :=
  if (7 ≤ hour ∧ hour ≤ 9) ∨ (17 ≤ hour ∧ hour ≤ 19) then 3 / 2
  else if 22 ≤ hour ∨ hour ≤ 5 then 13 / 10
  else 1

/-- JavaScript `Math.round`: rounds half toward positive infinity. -/
def jsRound (q : ℚ) : ℤ := ⌊q + 1 / 2⌋

/-- Per-class amount computed by `getFare` (src/services/ride.service.js):
`Math.round((base + (distance/1000)·perKm + (duration/60)·perMinute)·surge)`,
then clamped to `[2·base, 10·base]`, then `Math.round(fare/10)*10`.
Distance is in metres, duration in seconds; no minimum is applied to either. -/
def getFareAmount (vt : VehicleType) (hour : ℕ) (distanceM durationS : ℚ) : ℤ :=
  let raw : ℤ := jsRound (((baseFare vt : ℚ) + distanceM / 1000 * perKmRate vt +
    durationS / 60 * perMinuteRate vt) * surgeMultiplier hour)
  let clamped : ℤ := min (max raw (baseFare vt * 2)) (baseFare vt * 10)
  jsRound ((clamped : ℚ) / 10) * 10

/-- The fare persisted by `createRide` (src/services/ride.service.js):
distance and duration are floored at 1 km and 5 min (`effectiveDistance`,
`effectiveDuration`), the same formula is rounded, and the result is clamped
to `[2·base, 10·base]` — with no rounding to a multiple of 10. -/
def createRideFare (vt : VehicleType) (hour : ℕ) (distanceM durationS : ℚ) : ℤ :=
  let distanceInKm := distanceM / 1000
  let durationInMinutes := durationS / 60
  let effectiveDistance := max distanceInKm 1
  let effectiveDuration := max durationInMinutes 5
  let fare : ℤ := jsRound (((baseFare vt : ℚ) + effectiveDistance * perKmRate vt +
    effectiveDuration * perMinuteRate vt) * surgeMultiplier hour)
  let minFare := baseFare vt * 2
  let maxFare := baseFare vt * 10
  min (max fare minFare) maxFare

/-- A coordinate pair; the source destructures `[lng, lat]` from the GeoJSON
coordinate arrays. -/
structure GeoPoint where
  lng : ℚ
  lat : ℚ
deriving DecidableEq, Repr

/-- A distance (metres) / duration (seconds) result. -/
structure DistTime where
  distance : ℚ
  duration : ℚ
deriving DecidableEq, Repr

/-- `getDistanceTime` of src/services/maps.service.js, parameterised over the
external OSRM provider (`none` = request failed or returned a malformed
response) and over the haversine `calculateDistance` helper (lat1 lon1 lat2
lon2 ↦ km), which is abstracted because it is transcendental.  On provider
failure it falls back to the haversine distance (converted to metres) with
duration derived from a 30 km/h average speed, and still returns `ok`. -/
def getDistanceTime (provider : GeoPoint → GeoPoint → Option DistTime)
    (calculateDistance : ℚ → ℚ → ℚ → ℚ → ℚ)
    (pickup destination : GeoPoint) : Except String DistTime :=
  match provider pickup destination with
  | some route => .ok route
  | none =>
    let distance := calculateDistance pickup.lat pickup.lng destination.lat destination.lng * 1000
    let avgSpeed : ℚ := 30
    let duration := distance / 1000 / avgSpeed * 3600
    .ok ⟨distance, duration⟩

/-- `getRouteDetails` of src/services/maps.service.js: on provider failure it
throws (`Failed to get route details from mapping service.`) — there is no
haversine fallback on this path, which `createRide` uses. -/
def getRouteDetails (provider : GeoPoint → GeoPoint → Option DistTime)
    (origin destination : GeoPoint) : Except String DistTime :=
  match provider origin destination with
  | some route => .ok route
  | none => .error ("Failed to get route details from mapping service.")

/-- Contract of `crypto.randomInt(min, max)`: a uniform integer in
`[min, max)` from a cryptographically strong source. -/
def randomIntSpec (rand : ℕ → ℕ → ℕ) : Prop :=
  ∀ lo hi, lo < hi → lo ≤ rand lo hi ∧ rand lo hi < hi

/-- `generateOTP` of the helpers module (src/unnamed/part_002): draws
`crypto.randomInt(10^(length-1), (10^length - 1) + 1)`. -/
def generateOTP (len : ℕ) (rand : ℕ → ℕ → ℕ) : ℕ :=
  let mn := 10 ^ (len - 1)
  let mx := 10 ^ len - 1
  rand mn (mx + 1)

/-- `getOtp` of src/services/ride.service.js: draws
`crypto.randomInt(10^(num-1), 10^num)`. -/
def getOtp (num : ℕ) (rand : ℕ → ℕ → ℕ) : ℕ :=
  rand (10 ^ (num - 1)) (10 ^ num)

/-- A provider that fails on every attempt. -/
def failingProvider : GeoPoint → GeoPoint → Option DistTime := fun _ _ => none

/-- Concrete ride on the way: captain 0 assigned, user 7. -/
def rideOnTheWay : Ride :=
  { user := 7
    captain := some 0
    status := .onTheWay
    otp := "123456"
    estimatedArrival := true
    actualArrival := false
    actualEnd := false
    cancellationReason := none
    paymentMethod := none
    tip := none }

/-- System state with `rideOnTheWay`; the captain is unavailable, as required
by the availability invariant. -/
def sysOnTheWay : Sys := { ride := rideOnTheWay, capId := 0, isAvailable := false }

/-- Concrete accepted ride assigned to captain 0. -/
def sysAccepted : Sys :=
  { ride := { rideOnTheWay with status := .accepted, estimatedArrival := false }
    capId := 0
    isAvailable := false }

/-- Concrete requested ride with no captain; the captain is idle and
available. -/
def sysIdle : Sys :=
  { ride := { rideOnTheWay with
      status := .requested
      captain := none
      estimatedArrival := false }
    capId := 0
    isAvailable := true }

/-- Concrete in-progress ride assigned to captain 0. -/
def sysInProgress : Sys :=
  { ride := { rideOnTheWay with status := .inProgress, actualArrival := true }
    capId := 0
    isAvailable := false }

/-- Concrete completed ride. -/
def sysCompleted : Sys :=
  { ride := { rideOnTheWay with
      status := .completed
      actualArrival := true
      actualEnd := true }
    capId := 0
    isAvailable := true }

/-- Concrete cancelled ride. -/
def sysCancelled : Sys :=
  { ride := { rideOnTheWay with
      status := .cancelled
      cancellationReason := some "changed my mind" }
    capId := 0
    isAvailable := true }

/-- A degenerate random source that always returns the lower bound; it meets
the `crypto.randomInt` contract. -/
def lowRand : ℕ → ℕ → ℕ := fun lo _ => lo

deriving instance DecidableEq for Except

theorem validTransitions_eq_amendedDag (cur next : RideStatus) :
    (validTransitions cur).contains next = amendedDagAllowed cur next := by
  cases cur <;> cases next <;> decide

theorem setAvail_ride (s : Sys) (t : Option Nat) (b : Bool) :
    (setAvail s t b).ride = s.ride := by
  unfold setAvail; split <;> rfl

theorem setAvail_capId (s : Sys) (t : Option Nat) (b : Bool) :
    (setAvail s t b).capId = s.capId := by
  unfold setAvail; split <;> rfl

theorem setAvail_avail (s : Sys) (t : Option Nat) (b : Bool) :
    (setAvail s t b).isAvailable = if t = some s.capId then b else s.isAvailable := by
  unfold setAvail; split <;> rfl

theorem updateRideStatus_err (s : Sys) (ut : UserType) (actor : Nat)
    (ns : RideStatus) (data : RideData)
    (h : amendedDagAllowed s.ride.status ns = false) :
    updateRideStatus s ut actor ns data =
      Except.error ("Invalid status transition from " ++ statusStr s.ride.status ++
        " to " ++ statusStr ns) := by
  unfold updateRideStatus
  rw [validTransitions_eq_amendedDag, h]
  rfl

/-- C1 counterexample: the source's transition check accepts the edge
`on-the-way → cancelled`, which the claim's DAG (spec §4.3) excludes — a
rider cancelling an on-the-way ride succeeds and the ride ends up
`cancelled`. -/
theorem onTheWay_cancelled_transition_allowed :
    specDagAllowed .onTheWay .cancelled = false ∧
    sysOnTheWay.ride.status = .onTheWay ∧
    (runOrKeep sysOnTheWay
      (updateRideStatus sysOnTheWay .user 7 .cancelled
        ⟨none, some "rider cancelled"⟩)).ride.status = .cancelled := by
  decide

/-- C1 (amended): in both status-update handlers a ride's status only moves
along the DAG `Requested → Accepted → OnTheWay → InProgress →
{Completed | Cancelled}` extended with the direct edges `Requested →
Cancelled`, `Accepted → Cancelled` AND `OnTheWay → Cancelled`; any other
attempted edge is rejected with an error reporting the attempted and current
state, and `Completed`/`Cancelled` have no outbound transitions. -/
theorem updateRideStatus_respects_amendedDag (s : Sys) (ut : UserType)
    (actor : Nat) (ns : RideStatus) (data : RideData) :
    (∀ s2, updateRideStatus s ut actor ns data = Except.ok s2 →
      amendedDagAllowed s.ride.status ns = true ∧ s2.ride.status = ns) ∧
    (amendedDagAllowed s.ride.status ns = false →
      updateRideStatus s ut actor ns data =
        Except.error ("Invalid status transition from " ++
          statusStr s.ride.status ++ " to " ++ statusStr ns)) := by
  constructor
  · intro s2 hok
    have hdag : amendedDagAllowed s.ride.status ns = true := by
      by_contra hneg
      rw [Bool.not_eq_true] at hneg
      unfold updateRideStatus at hok
      rw [validTransitions_eq_amendedDag, hneg] at hok
      simp at hok
    refine ⟨hdag, ?_⟩
    unfold updateRideStatus at hok
    rw [validTransitions_eq_amendedDag, hdag] at hok
    simp only [Bool.not_true, Bool.false_eq_true, if_false] at hok
    split at hok
    · split at hok
      · exact Except.noConfusion hok
      · injection hok with h2; subst h2; rw [setAvail_ride]
    · split at hok
      · exact Except.noConfusion hok
      · injection hok with h2; subst h2; rfl
    · split at hok
      · exact Except.noConfusion hok
      · split at hok
        · exact Except.noConfusion hok
        · injection hok with h2; subst h2; rfl
    · split at hok
      · exact Except.noConfusion hok
      · injection hok with h2; subst h2; rw [setAvail_ride]
    · split at hok
      · injection hok with h2; subst h2; rw [setAvail_ride]
      · injection hok with h2; subst h2; rfl
    · injection hok with h2; subst h2; rfl
  · intro hdag
    exact updateRideStatus_err s ut actor ns data hdag

/-- C1 witness: from `on-the-way`, cancelling succeeds (an edge of the
amended DAG) and moving to `completed` is rejected with the error naming both
states. -/
theorem updateRideStatus_respects_amendedDag_witness :
    (amendedDagAllowed sysOnTheWay.ride.status .cancelled = true ∧
      (runOrKeep sysOnTheWay (updateRideStatus sysOnTheWay .user 7 .cancelled
        ⟨none, none⟩)).ride.status = .cancelled) ∧
    updateRideStatus sysOnTheWay .captain 0 .completed ⟨none, none⟩ =
      Except.error ("Invalid status transition from on-the-way to completed") := by
  constructor
  · have h := (updateRideStatus_respects_amendedDag sysOnTheWay .user 7 .cancelled
      ⟨none, none⟩).1 (runOrKeep sysOnTheWay (updateRideStatus sysOnTheWay .user 7
        .cancelled ⟨none, none⟩)) (by decide)
    exact ⟨h.1, h.2⟩
  · exact (updateRideStatus_respects_amendedDag sysOnTheWay .captain 0 .completed
      ⟨none, none⟩).2 (by decide)

/-- C2 counterexample: the claim's availability invariant fails after three
operations of the source.  (a) A captain reconnecting while assigned an
accepted ride is set available by the auth middleware; (b) a captain with no
ride is set unavailable on disconnect; (c) the HTTP `endRide` completes the
ride without releasing the captain. -/
theorem availability_invariant_counterexample :
    (availabilityInvariant sysAccepted ∧
      ¬ availabilityInvariant (socketConnect sysAccepted)) ∧
    (availabilityInvariant sysIdle ∧
      ¬ availabilityInvariant (socketDisconnect sysIdle)) ∧
    (availabilityInvariant sysInProgress ∧
      ¬ availabilityInvariant
        (runOrKeep sysInProgress (endRide sysInProgress 0 (some "cash") none))) := by
  decide

/-- C2 (amended): the availability invariant is preserved by the
status-update handler's accept, complete and cancel operations (given it held
before, and that a requested ride carries no captain); it is NOT preserved by
socket connect, socket disconnect, or the HTTP `endRide`, which set or leave
the flag regardless of active assignments. -/
theorem availabilityInvariant_socket_ops (s : Sys) (data : RideData)
    (actor : Nat) (ut : UserType)
    (hinv : availabilityInvariant s)
    (hwf : s.ride.status = .requested → s.ride.captain = none) :
    availabilityInvariant
      (runOrKeep s (updateRideStatus s .captain actor .accepted data)) ∧
    availabilityInvariant
      (runOrKeep s (updateRideStatus s .captain actor .completed data)) ∧
    availabilityInvariant
      (runOrKeep s (updateRideStatus s ut actor .cancelled data)) := by
  refine ⟨?_, ?_, ?_⟩
  · cases hst : s.ride.status
    case requested =>
      have hcap := hwf hst
      have hvt : RideStatus.accepted ∈ validTransitions s.ride.status := by
        rw [hst]; decide
      by_cases hac : actor = s.capId
      · subst hac
        simp [updateRideStatus, hvt, runOrKeep, setAvail, availabilityInvariant,
          holdsActiveRide, activeStatus]
      · simp only [availabilityInvariant, holdsActiveRide, hcap] at hinv
        simp [updateRideStatus, hvt, runOrKeep, setAvail, availabilityInvariant,
          holdsActiveRide, activeStatus, hac, hinv]
    all_goals
      have hbad : amendedDagAllowed s.ride.status .accepted = false := by
        rw [hst]; decide
      rw [updateRideStatus_err _ _ _ _ _ hbad]
      simpa [runOrKeep] using hinv
  · cases hst : s.ride.status
    case inProgress =>
      have hvt : RideStatus.completed ∈ validTransitions s.ride.status := by
        rw [hst]; decide
      by_cases hc : s.ride.captain = some s.capId
      · simp [updateRideStatus, hvt, runOrKeep, setAvail, availabilityInvariant,
          holdsActiveRide, activeStatus, hc]
      · simp only [availabilityInvariant, holdsActiveRide, hc] at hinv
        simp [updateRideStatus, hvt, runOrKeep, setAvail, availabilityInvariant,
          holdsActiveRide, activeStatus, hc, hinv]
    all_goals
      have hbad : amendedDagAllowed s.ride.status .completed = false := by
        rw [hst]; decide
      rw [updateRideStatus_err _ _ _ _ _ hbad]
      simpa [runOrKeep] using hinv
  · cases hst : s.ride.status
    case completed =>
      have hbad : amendedDagAllowed s.ride.status .cancelled = false := by
        rw [hst]; decide
      rw [updateRideStatus_err _ _ _ _ _ hbad]
      simpa [runOrKeep] using hinv
    case cancelled =>
      have hbad : amendedDagAllowed s.ride.status .cancelled = false := by
        rw [hst]; decide
      rw [updateRideStatus_err _ _ _ _ _ hbad]
      simpa [runOrKeep] using hinv
    all_goals
      have hvt : RideStatus.cancelled ∈ validTransitions s.ride.status := by
        rw [hst]; decide
      rcases hc : s.ride.captain with _ | cid
      · simp only [availabilityInvariant, holdsActiveRide, hc] at hinv
        simp [updateRideStatus, hvt, runOrKeep, setAvail, availabilityInvariant,
          holdsActiveRide, activeStatus, hc, hinv]
      · by_cases hcc : cid = s.capId
        · subst hcc
          simp [updateRideStatus, hvt, runOrKeep, setAvail, availabilityInvariant,
            holdsActiveRide, activeStatus, hc]
        · simp only [availabilityInvariant, holdsActiveRide, hc] at hinv
          simp [updateRideStatus, hvt, runOrKeep, setAvail, availabilityInvariant,
            holdsActiveRide, activeStatus, hc, hcc, hinv]

/-- C2 witness: instantiating the preservation theorem at the idle state
(requested ride, no captain, captain available), whose hypotheses hold. -/
theorem availabilityInvariant_socket_ops_witness :
    availabilityInvariant
      (runOrKeep sysIdle (updateRideStatus sysIdle .captain 0 .accepted ⟨none, none⟩)) ∧
    availabilityInvariant
      (runOrKeep sysIdle (updateRideStatus sysIdle .captain 0 .completed ⟨none, none⟩)) ∧
    availabilityInvariant
      (runOrKeep sysIdle (updateRideStatus sysIdle .user 7 .cancelled ⟨none, none⟩)) :=
  availabilityInvariant_socket_ops sysIdle ⟨none, none⟩ 0 .user (by decide)
    (fun _ => by decide)

/-- C5: the `endRide` service operation, run at an in-progress ride held by
captain 0 who is (correctly) unavailable, completes the ride and sets the
actual-end timestamp but leaves the captain's availability flag false —
the driver is never released back to available, contradicting the claim
(the socket `ride:status` completed path does release, so the HTTP path is
the slip). -/
theorem endRide_leaves_captain_unavailable :
    (runOrKeep sysInProgress (endRide sysInProgress 0 (some "card") (some 5))).ride.status
        = .completed ∧
    (runOrKeep sysInProgress (endRide sysInProgress 0 (some "card") (some 5))).ride.actualEnd
        = true ∧
    (runOrKeep sysInProgress (endRide sysInProgress 0 (some "card") (some 5))).isAvailable
        = false ∧
    holdsActiveRide (runOrKeep sysInProgress (endRide sysInProgress 0 (some "card") (some 5)))
        = false := by
  decide

/-- C6: for a ride in state accepted held by the requesting captain, a
supplied code different from the stored one makes `startRide` fail with the
invalid-code error, and nothing is saved: the record is unchanged. -/
theorem startRide_wrong_otp_fails (s : Sys) (actor : Nat) (code : String)
    (hcap : s.ride.captain = some actor) (hst : s.ride.status = .accepted)
    (hne : code ≠ s.ride.otp) :
    startRide s actor code = Except.error ("Failed to start ride: Invalid OTP") ∧
    runOrKeep s (startRide s actor code) = s := by
  unfold startRide
  rw [if_pos ⟨hcap, hst⟩, if_pos (Ne.symm hne)]
  exact ⟨rfl, rfl⟩

/-- C6 witness: captain 0 supplies code 000000 against stored code 123456. -/
theorem startRide_wrong_otp_fails_witness :
    startRide sysAccepted 0 "000000" =
      Except.error ("Failed to start ride: Invalid OTP") ∧
    runOrKeep sysAccepted (startRide sysAccepted 0 "000000") = sysAccepted :=
  startRide_wrong_otp_fails sysAccepted 0 "000000" (by decide) (by decide) (by decide)

/-- C7: `cancelRide` on a ride whose status is completed or cancelled fails
(the `findOne` filter only matches requested/accepted rides) and nothing is
saved: the record is unchanged — it is not a silent no-op. -/
theorem cancelRide_terminal_fails (s : Sys) (uid : Nat) (reason : Option String)
    (hterm : s.ride.status = .completed ∨ s.ride.status = .cancelled) :
    cancelRide s uid reason =
      Except.error ("Failed to cancel ride: Ride not found or cannot be cancelled") ∧
    runOrKeep s (cancelRide s uid reason) = s := by
  unfold cancelRide
  have hng : ¬ (s.ride.user = uid ∧
      (s.ride.status = .requested ∨ s.ride.status = .accepted)) := by
    rcases hterm with h | h <;> rintro ⟨-, h2 | h2⟩ <;> rw [h] at h2 <;> cases h2
  rw [if_neg hng]
  exact ⟨rfl, rfl⟩

/-- C7 witness: cancelling the completed ride and the cancelled ride both
fail and leave the records unchanged. -/
theorem cancelRide_terminal_fails_witness :
    (cancelRide sysCompleted 7 none =
      Except.error ("Failed to cancel ride: Ride not found or cannot be cancelled") ∧
      runOrKeep sysCompleted (cancelRide sysCompleted 7 none) = sysCompleted) ∧
    (cancelRide sysCancelled 7 (some "again") =
      Except.error ("Failed to cancel ride: Ride not found or cannot be cancelled") ∧
      runOrKeep sysCancelled (cancelRide sysCancelled 7 (some "again")) = sysCancelled) :=
  ⟨cancelRide_terminal_fails sysCompleted 7 none (Or.inl (by decide)),
   cancelRide_terminal_fails sysCancelled 7 (some "again") (Or.inr (by decide))⟩

/-- C8 counterexample: `getRouteDetails` — the route lookup `createRide`
uses — raises an error when the provider fails on every attempt, instead of
returning a haversine-based estimate. -/
theorem getRouteDetails_raises_on_provider_failure :
    getRouteDetails failingProvider ⟨72, 23⟩ ⟨73, 19⟩ =
      Except.error ("Failed to get route details from mapping service.") := rfl

/-- C8 (amended): `getDistanceTime` — the fare path's route operation —
never raises for valid coordinates under any provider behaviour, and when
the provider fails on every attempt it returns the haversine great-circle
estimate: distance = haversine km × 1000 metres, duration = distance at an
assumed 30 km/h average speed (i.e. haversine km × 120 seconds).
`getRouteDetails`, the ride-creation path, raises instead (see the
counterexample). -/
theorem getDistanceTime_never_fails_and_falls_back :
    (∀ (provider : GeoPoint → GeoPoint → Option DistTime)
       (cd : ℚ → ℚ → ℚ → ℚ → ℚ) (p d : GeoPoint),
      ∃ r, getDistanceTime provider cd p d = Except.ok r) ∧
    (∀ (cd : ℚ → ℚ → ℚ → ℚ → ℚ) (p d : GeoPoint),
      getDistanceTime failingProvider cd p d =
        Except.ok ⟨cd p.lat p.lng d.lat d.lng * 1000,
          cd p.lat p.lng d.lat d.lng * 120⟩) := by
  constructor
  · intro provider cd p d
    unfold getDistanceTime
    cases provider p d
    · exact ⟨_, rfl⟩
    · exact ⟨_, rfl⟩
  · intro cd p d
    simp only [getDistanceTime, failingProvider]
    have h : cd p.lat p.lng d.lat d.lng * 1000 / 1000 / 30 * 3600 =
        cd p.lat p.lng d.lat d.lng * 120 := by ring
    rw [h]

/-- C9: under the `crypto.randomInt` contract, both `generateOTP 6` (helpers
module) and `getOtp 6` (ride service) produce an integer between 100000 and
999999 inclusive — i.e. a string of exactly 6 decimal digits once rendered
with `toString`. -/
theorem otp_codes_six_digits (rand : ℕ → ℕ → ℕ) (h : randomIntSpec rand) :
    (100000 ≤ generateOTP 6 rand ∧ generateOTP 6 rand ≤ 999999) ∧
    (100000 ≤ getOtp 6 rand ∧ getOtp 6 rand ≤ 999999) := by
  have h1 := h 100000 1000000 (by norm_num)
  have e1 : generateOTP 6 rand = rand 100000 1000000 := by
    unfold generateOTP; norm_num
  have e2 : getOtp 6 rand = rand 100000 1000000 := by
    unfold getOtp; norm_num
  rw [e1, e2]
  omega

/-- C9 witness: the contract-satisfying source that always returns the lower
bound yields 100000 from both generators. -/
theorem otp_codes_six_digits_witness :
    (100000 ≤ generateOTP 6 lowRand ∧ generateOTP 6 lowRand ≤ 999999) ∧
    (100000 ≤ getOtp 6 lowRand ∧ getOtp 6 lowRand ≤ 999999) :=
  otp_codes_six_digits lowRand (fun lo _ hlt => ⟨Nat.le_refl lo, hlt⟩)

/-- C10: for a ride eligible for the in-progress transition (status
on-the-way), the handler raises the invalid-code error iff the request
carries a truthy `otp` field that differs from the stored code; a request
omitting `otp` moves the ride to in-progress with no code check. -/
theorem inProgress_otp_checked_iff_supplied (s : Sys) (actor : Nat)
    (data : RideData) (hst : s.ride.status = .onTheWay) :
    (updateRideStatus s .captain actor .inProgress data =
        Except.error ("Invalid OTP") ↔
      jsTruthyStr data.otp = true ∧ data.otp ≠ some s.ride.otp) ∧
    (data.otp = none →
      updateRideStatus s .captain actor .inProgress data =
        Except.ok { s with ride :=
          { s.ride with status := .inProgress, actualArrival := true } }) := by
  have hvt : RideStatus.inProgress ∈ validTransitions s.ride.status := by
    rw [hst]; decide
  constructor
  · constructor
    · intro herr
      by_cases hc : jsTruthyStr data.otp = true ∧ data.otp ≠ some s.ride.otp
      · exact hc
      · exfalso
        unfold updateRideStatus at herr
        simp [hvt, hc] at herr
    · intro hc
      unfold updateRideStatus
      simp [hvt, hc]
  · intro hnone
    unfold updateRideStatus
    simp [hvt, hnone, jsTruthyStr]

/-- C10 witness: on the concrete on-the-way ride, supplying the wrong code
999999 raises the invalid-code error while omitting the code starts the
ride. -/
theorem inProgress_otp_checked_iff_supplied_witness :
    updateRideStatus sysOnTheWay .captain 0 .inProgress ⟨some "999999", none⟩ =
      Except.error ("Invalid OTP") ∧
    updateRideStatus sysOnTheWay .captain 0 .inProgress ⟨none, none⟩ =
      Except.ok { sysOnTheWay with ride :=
        { sysOnTheWay.ride with status := .inProgress, actualArrival := true } } := by
  constructor
  · exact (inProgress_otp_checked_iff_supplied sysOnTheWay 0 ⟨some "999999", none⟩
      (by decide)).1.mpr (by decide)
  · exact (inProgress_otp_checked_iff_supplied sysOnTheWay 0 ⟨none, none⟩
      (by decide)).2 rfl

theorem jsRound_intCast_div_ten_bounds (v a c : ℤ) (h1 : 10 * a ≤ v)
    (h2 : v ≤ 10 * c) :
    10 * a ≤ jsRound ((v : ℚ) / 10) * 10 ∧ jsRound ((v : ℚ) / 10) * 10 ≤ 10 * c := by
  unfold jsRound
  have hfa : a ≤ ⌊(v : ℚ) / 10 + 1 / 2⌋ := by
    apply Int.le_floor.mpr
    have hv : (10 : ℚ) * (a : ℚ) ≤ (v : ℚ) := by exact_mod_cast h1
    linarith
  have hfc : ⌊(v : ℚ) / 10 + 1 / 2⌋ ≤ c := by
    have hlt : ⌊(v : ℚ) / 10 + 1 / 2⌋ < c + 1 := by
      apply Int.floor_lt.mpr
      have hv : (v : ℚ) ≤ 10 * (c : ℚ) := by exact_mod_cast h2
      push_cast
      linarith
    omega
  constructor <;> linarith

theorem clamp_bounds (raw lo hi : ℤ) (h : lo ≤ hi) :
    lo ≤ min (max raw lo) hi ∧ min (max raw lo) hi ≤ hi :=
  ⟨le_min (le_max_right raw lo) h, min_le_right _ _⟩

theorem round10_of_clamped (v lo hi : ℤ) (hlo : lo ≤ v) (hhi : v ≤ hi)
    (dlo : 10 ∣ lo) (dhi : 10 ∣ hi) :
    lo ≤ jsRound ((v : ℚ) / 10) * 10 ∧ jsRound ((v : ℚ) / 10) * 10 ≤ hi ∧
      (10 : ℤ) ∣ jsRound ((v : ℚ) / 10) * 10 := by
  obtain ⟨a, ha⟩ := dlo
  obtain ⟨c, hc⟩ := dhi
  subst ha
  subst hc
  have h := jsRound_intCast_div_ten_bounds v a c hlo hhi
  exact ⟨h.1, h.2, dvd_mul_left 10 _⟩

/-- C3 counterexample: `createRide` with route distance 3500 m, duration
600 s, vehicle `auto`, at hour 12 (no surge) persists the fare 85 — inside
`[2×base, 10×base] = [60, 300]` but not a multiple of 10, because
`createRide` clamps without rounding to the nearest 10. -/
theorem createRideFare_not_multiple_of_ten :
    createRideFare .auto 12 3500 600 = 85 ∧
    ¬ (10 : ℤ) ∣ createRideFare .auto 12 3500 600 := by
  have h : createRideFare .auto 12 3500 600 = 85 := by
    norm_num [createRideFare, jsRound, baseFare, perKmRate, perMinuteRate,
      surgeMultiplier, max_def, min_def]
  refine ⟨h, ?_⟩
  rw [h]
  omega

/-- C3 (amended): for every distance, duration, hour and vehicle class, the
per-class amount of `getFare` lies in `[2×base, 10×base]` and is a multiple
of 10; the fare persisted by `createRide` lies in the same interval but is
only clamped, not rounded to a multiple of 10. -/
theorem fare_amount_bounds (vt : VehicleType) (hour : ℕ) (d t : ℚ) :
    (baseFare vt * 2 ≤ getFareAmount vt hour d t ∧
      getFareAmount vt hour d t ≤ baseFare vt * 10 ∧
      (10 : ℤ) ∣ getFareAmount vt hour d t) ∧
    (baseFare vt * 2 ≤ createRideFare vt hour d t ∧
      createRideFare vt hour d t ≤ baseFare vt * 10) := by
  have hb2 : baseFare vt * 2 ≤ baseFare vt * 10 := by cases vt <;> decide
  have d2 : (10 : ℤ) ∣ baseFare vt * 2 := by cases vt <;> decide
  have d10 : (10 : ℤ) ∣ baseFare vt * 10 := by cases vt <;> decide
  constructor
  · have hcl := clamp_bounds (jsRound (((baseFare vt : ℚ) +
      d / 1000 * perKmRate vt + t / 60 * perMinuteRate vt) *
      surgeMultiplier hour)) (baseFare vt * 2) (baseFare vt * 10) hb2
    exact round10_of_clamped _ _ _ hcl.1 hcl.2 d2 d10
  · exact clamp_bounds (jsRound (((baseFare vt : ℚ) +
      max (d / 1000) 1 * perKmRate vt + max (t / 60) 5 * perMinuteRate vt) *
      surgeMultiplier hour)) (baseFare vt * 2) (baseFare vt * 10) hb2

/-- C4 counterexample: `getFare` applies no minimum to distance or duration.
For `auto`, hour 12, duration 3600 s: at distance 0 m it yields 150, while at
the claimed 1 km floor it yields 160 — so the formula was applied to the raw
distance, not the floored one.  `createRide` at distance 0 m yields 160, the
floored value. -/
theorem getFare_ignores_minimums :
    getFareAmount .auto 12 0 3600 = 150 ∧
    getFareAmount .auto 12 1000 3600 = 160 ∧
    createRideFare .auto 12 0 3600 = 160 := by
  refine ⟨?_, ?_, ?_⟩ <;>
    norm_num [getFareAmount, createRideFare, jsRound, baseFare, perKmRate,
      perMinuteRate, surgeMultiplier, max_def, min_def]

/-- C4 (amended): `createRide` floors distance at 1 km and duration at 5 min
before applying the fare formula — its result is invariant under raising
inputs to those floors — while `getFare` applies the formula to the raw
distance and duration with no floors (its results at 0 m and at the 1 km
floor differ). -/
theorem createRideFare_floors_minimums :
    (∀ (vt : VehicleType) (hour : ℕ) (d t : ℚ),
      createRideFare vt hour d t = createRideFare vt hour (max d 1000) (max t 300)) ∧
    getFareAmount .auto 12 0 3600 ≠ getFareAmount .auto 12 1000 3600 := by
  constructor
  · intro vt hour d t
    have key : max (max d 1000 / 1000) (1 : ℚ) = max (d / 1000) 1 := by
      rcases le_total d 1000 with h | h
      · rw [max_eq_right h,
          max_eq_right ((div_le_one (by norm_num : (0:ℚ) < 1000)).mpr h)]
        norm_num
      · rw [max_eq_left h]
    have key2 : max (max t 300 / 60) (5 : ℚ) = max (t / 60) 5 := by
      rcases le_total t 300 with h | h
      · have h60 : t / 60 ≤ 5 := by
          rw [div_le_iff₀ (by norm_num : (0:ℚ) < 60)]
          linarith
        rw [max_eq_right h, max_eq_right h60]
        norm_num
      · rw [max_eq_left h]
    simp only [createRideFare, key, key2]
  · norm_num [getFareAmount, jsRound, baseFare, perKmRate,
      perMinuteRate, surgeMultiplier, max_def, min_def]
